import Mathlib

/-!
Verification development for the income-clarity operational scripts
(`dropbox-refresh-token.py`, `dropbox-oauth-setup.py`, `dropbox-api.py`).

The scripts manipulate a flat credentials file of `KEY=VALUE` lines.  We give
a shallow embedding: file contents are lists of raw lines (strings, normally
ending in a newline, exactly as produced by Python's `for line in f`), Python
string primitives (`strip`, `startswith`, `split('=', 1)`, `in`) are modelled
on `String.data` (lists of characters), and every network interaction is
modelled by passing the HTTP status / response payload of the single request a
function performs as an explicit argument, together with a boolean recording
whether the request was issued at all.
-/

namespace IncomeClarity

/-- The whitespace characters stripped by Python's `str.strip()`. -/
def isPyWS (c : Char) : Bool :=
  c = ' ' || c = '\t' || c = '\n' || c = '\r' || c = '\x0b' || c = '\x0c'

/-- Python `str.strip()` on a character list: drop whitespace at both ends. -/
def stripChars (cs : List Char) : List Char :=
  ((cs.dropWhile isPyWS).reverse.dropWhile isPyWS).reverse

/-- Python `str.strip()`. -/
def pyStrip (s : String) : String :=
  String.mk (stripChars s.data)

/-- Python `s.startswith(pre)`. -/
def pyStartsWith (s pre : String) : Bool :=
  pre.data.isPrefixOf s.data

/-- Python `c in s` membership test on a character list. -/
def hasChar (cs : List Char) (a : Char) : Bool :=
  cs.any (fun c => c = a)

/-- Python truthiness of an optional string (`None` and `""` are falsy):
this is the test `if not x` applied to `dict.get` results in the scripts. -/
def pyTruthy : Option String → Bool
  | none => false
  | some s => !s.data.isEmpty

/-- Characters of `cs` before the first `'='` — the key part of Python's
`line.split('=', 1)`. -/
def chKeyAux : List Char → List Char
  | [] => []
  | c :: cs => if c = '=' then [] else c :: chKeyAux cs

/-- Characters of `cs` after the first `'='` — the value part of Python's
`line.split('=', 1)`. -/
def chAfterEq : List Char → List Char
  | [] => []
  | c :: cs => if c = '=' then cs else chAfterEq cs

/-- Key part of a `KEY=VALUE` line, as a string. -/
def keyOfLine (s : String) : String :=
  String.mk (chKeyAux s.data)

/-- Value part of a `KEY=VALUE` line, as a string. -/
def valOfLine (s : String) : String :=
  String.mk (chAfterEq s.data)

/-- Insertion into a Python `dict` represented as an association list that
keeps insertion order: an existing binding is overwritten in place, a new
key is appended at the end. -/
def dictInsert (m : List (String × String)) (k v : String) : List (String × String) :=
  if m.any (fun p => p.1 == k) then
    m.map (fun p => if p.1 == k then (k, v) else p)
  else
    m ++ [(k, v)]

/-- Python `dict.get`. -/
def envGet (m : List (String × String)) (k : String) : Option String :=
  (m.find? (fun p => p.1 == k)).map (fun p => p.2)

/-- One iteration of the `for line in f` loop of `load_env` in
`dropbox-refresh-token.py`: strip, skip blank and `#`-comment lines, and
skip (silently) any remaining line that contains no `'='`. -/
def envStep (m : List (String × String)) (line : String) : List (String × String) :=
  if !(pyStrip line).data.isEmpty && !(pyStartsWith (pyStrip line) "#") then
    if hasChar (pyStrip line).data '=' then
      dictInsert m (keyOfLine (pyStrip line)) (valOfLine (pyStrip line))
    else
      m
  else
    m

/-- `load_env` of `dropbox-refresh-token.py`, over the raw lines of the
credentials file (total: malformed lines are skipped). -/
def load_env (lines : List String) : List (String × String) :=
  lines.foldl envStep []

/-- One iteration of the `for line in f` loop of `load_env` in
`dropbox-api.py`: here `key, value = line.split('=', 1)` raises an unhandled
`ValueError` when a processed line contains no `'='`; the exception is
modelled by `none`. -/
def envStepApi (acc : Option (List (String × String))) (line : String) :
    Option (List (String × String)) :=
  match acc with
  | none => none
  | some m =>
    if !(pyStrip line).data.isEmpty && !(pyStartsWith (pyStrip line) "#") then
      if hasChar (pyStrip line).data '=' then
        some (dictInsert m (keyOfLine (pyStrip line)) (valOfLine (pyStrip line)))
      else
        none
    else
      some m

/-- `load_env` of `dropbox-api.py` (partial: `none` models the unhandled
`ValueError` on a non-empty, non-comment line without `'='`). -/
def load_env_api (lines : List String) : Option (List (String × String)) :=
  lines.foldl envStepApi (some [])

/-- A raw line is harmless for `dropbox-api.py`'s `load_env` when, after
stripping, it is empty, a comment, or contains an `'='`. -/
def goodLineB (line : String) : Bool :=
  (pyStrip line).data.isEmpty || pyStartsWith (pyStrip line) "#" ||
    hasChar (pyStrip line).data '='

example : load_env ["DROPBOX_ACCESS_TOKEN=abc\n", "# comment\n", "X=1\n"] =
    [("DROPBOX_ACCESS_TOKEN", "abc"), ("X", "1")] := by decide

example : load_env ["broken line\n", "X=1\n"] = [("X", "1")] := by decide

example : load_env_api ["broken line\n", "X=1\n"] = none := by decide

example : load_env_api ["DROPBOX_ACCESS_TOKEN=a=b\n"] =
    some [("DROPBOX_ACCESS_TOKEN", "a=b")] := by decide

example : envGet [("A", "1"), ("B", "2")] "B" = some "2" := by decide

/-!  ## Token Refresh Utility (`dropbox-refresh-token.py`)  -/

/-- Outcome of one invocation of `test_token`, distinguishing the three
printed/returned cases plus the no-stored-token early return. -/
inductive ProbeOutcome
  | noToken
  | healthy
  | expired
  | apiError
deriving DecidableEq

/-- Result of running `test_token`: whether the probe HTTP request was
issued, the boolean the function returns, and the reported outcome. -/
structure ProbeRun where
  network : Bool
  result : Bool
  outcome : ProbeOutcome
deriving DecidableEq

/-- `test_token` of `dropbox-refresh-token.py`.  `lines` is the content of
the credentials file; `status` is the HTTP status of the probe request (used
only if the request is issued). -/
def test_token (lines : List String) (status : Nat) : ProbeRun :=
  if pyTruthy (envGet (load_env lines) "DROPBOX_ACCESS_TOKEN") then
    if status = 200 then ⟨true, true, .healthy⟩
    else if status = 401 then ⟨true, false, .expired⟩
    else ⟨true, false, .apiError⟩
  else ⟨false, false, .noToken⟩

/-- The in-place rewrite of the credentials file performed by
`refresh_access_token` on HTTP 200: every raw line starting with
`DROPBOX_ACCESS_TOKEN=` is replaced by the new token line, every other raw
line is copied through verbatim. -/
def refreshRewrite (newTok : String) (lines : List String) : List String :=
  lines.map (fun line =>
    if pyStartsWith line "DROPBOX_ACCESS_TOKEN=" then
      "DROPBOX_ACCESS_TOKEN=" ++ newTok ++ "\n"
    else line)

/-- Result of running `refresh_access_token`: whether the token-endpoint
request was issued, the boolean the function returns, and the credentials
file content after the call. -/
structure RefreshRun where
  network : Bool
  ok : Bool
  newLines : List String
deriving DecidableEq

/-- `refresh_access_token` of `dropbox-refresh-token.py`.  `status` is the
HTTP status of the token-endpoint request and `newTok` the `access_token`
of its JSON body (used only on status 200, where the code indexes it). -/
def refresh_access_token (lines : List String) (status : Nat) (newTok : String) : RefreshRun :=
  if pyTruthy (envGet (load_env lines) "DROPBOX_REFRESH_TOKEN") then
    if status = 200 then ⟨true, true, refreshRewrite newTok lines⟩
    else ⟨true, false, lines⟩
  else ⟨false, false, lines⟩

/-- One observable step of `main` in `dropbox-refresh-token.py`. -/
inductive Step
  | probe (o : ProbeOutcome)
  | refreshStep (ok : Bool)
deriving DecidableEq

/-- Recogniser for refresh steps. -/
def isRefreshStep : Step → Bool
  | .refreshStep _ => true
  | _ => false

/-- The external inputs `main` can consume: the credentials file and the
HTTP statuses / token of the at most three requests it can issue. -/
structure World where
  fileLines : List String
  s1 : Nat
  refreshStatus : Nat
  newTok : String
  s2 : Nat

/-- The orchestration of `main` in `dropbox-refresh-token.py`: probe, and if
the probe returned `False`, refresh; if the refresh returned `True`, probe
once more against the rewritten file. -/
def mainTrace (w : World) : List Step :=
  Step.probe (test_token w.fileLines w.s1).outcome ::
    (if (test_token w.fileLines w.s1).result then []
     else
       Step.refreshStep (refresh_access_token w.fileLines w.refreshStatus w.newTok).ok ::
         (if (refresh_access_token w.fileLines w.refreshStatus w.newTok).ok then
            [Step.probe (test_token
              (refresh_access_token w.fileLines w.refreshStatus w.newTok).newLines w.s2).outcome]
          else []))

example : test_token ["DROPBOX_ACCESS_TOKEN=abc\n"] 401 = ⟨true, false, .expired⟩ := by decide

example : refresh_access_token ["DROPBOX_REFRESH_TOKEN=r\n", "X=1\n"] 200 "new" =
    ⟨true, true, ["DROPBOX_REFRESH_TOKEN=r\n", "X=1\n"]⟩ := by decide

example : refresh_access_token ["DROPBOX_REFRESH_TOKEN=r\n", "DROPBOX_ACCESS_TOKEN=old\n"]
    200 "new" =
    ⟨true, true, ["DROPBOX_REFRESH_TOKEN=r\n", "DROPBOX_ACCESS_TOKEN=new\n"]⟩ := by decide

example : mainTrace ⟨["DROPBOX_ACCESS_TOKEN=t\n", "DROPBOX_REFRESH_TOKEN=r\n"],
    500, 200, "new", 200⟩ =
    [.probe .apiError, .refreshStep true, .probe .healthy] := by decide

/-!  ## Authorization Flow Runner (`dropbox-oauth-setup.py`)  -/

/-- A raw line is kept by `do_GET`'s read loop exactly when it starts with
neither token key. -/
def keepLine (line : String) : Bool :=
  !(pyStartsWith line "DROPBOX_ACCESS_TOKEN=") &&
    !(pyStartsWith line "DROPBOX_REFRESH_TOKEN=")

/-- The `existing_lines` accumulation loop of `do_GET` (a `for` loop with a
conditional `append`). -/
def collectExisting (lines : List String) : List String :=
  lines.foldl (fun acc line => if keepLine line then acc ++ [line] else acc) []

/-- The strings written to the credentials file by `do_GET` on a successful
exchange, in order: the kept raw lines, then
`"\nDROPBOX_ACCESS_TOKEN=<tok>\n"`, then — only when the response carried a
`refresh_token` — `"DROPBOX_REFRESH_TOKEN=<rt>\n"`.  The written file is the
concatenation of these strings. -/
def oauthWriteChunks (accessTok : String) (refreshTok : Option String)
    (lines : List String) : List String :=
  collectExisting lines ++ ["\n" ++ "DROPBOX_ACCESS_TOKEN=" ++ accessTok ++ "\n"] ++
    (match refreshTok with
     | some rt => ["DROPBOX_REFRESH_TOKEN=" ++ rt ++ "\n"]
     | none => [])

/-- The fields of the token-endpoint JSON body that `do_GET` inspects; an
`Option` records presence of the key (the code tests `'access_token' in
tokens`, a key-presence check). -/
structure TokenResp where
  access : Option String
  refresh : Option String
deriving DecidableEq

/-- The HTTP response `do_GET` sends back to the browser. -/
inductive HandlerResponse
  | badCodeError
  | badTokenError
  | successPage
deriving DecidableEq

/-- Result of one `do_GET` callback invocation: the response to the browser,
whether `os._exit(0)` ran, and the chunks written to the store (if any). -/
structure HandlerRun where
  response : HandlerResponse
  exited : Bool
  newStore : Option (List String)
deriving DecidableEq

/-- `do_GET` of `dropbox-oauth-setup.py` on an `/oauth_callback` request.
`code` is the first value of the `code` query parameter (`none` when the
parameter is absent; the code also treats an empty string as missing via
Python truthiness).  `resp` is the token-endpoint response for the exchange
and `lines` the current credentials file. -/
def handleCallback (code : Option String) (resp : TokenResp) (lines : List String) :
    HandlerRun :=
  if pyTruthy code then
    match resp.access with
    | some tok => ⟨.successPage, true, some (oauthWriteChunks tok resp.refresh lines)⟩
    | none => ⟨.badTokenError, false, none⟩
  else ⟨.badCodeError, false, none⟩

/-- One incoming callback request, with the token-endpoint response its
exchange (if attempted) would receive. -/
structure CallbackReq where
  code : Option String
  resp : TokenResp
deriving DecidableEq

/-- A request on which the handler reaches `os._exit(0)`: a truthy `code`
and a token response containing the `access_token` key. -/
def isSuccessReq (r : CallbackReq) : Bool :=
  pyTruthy r.code && r.resp.access.isSome

/-- `serve_forever` handling a stream of callback requests one at a time:
each is processed by `do_GET`, and the loop ends exactly when a handler
calls `os._exit(0)`.  The store is unchanged before the exiting request,
since only the exiting invocation writes it. -/
def serverRun (lines : List String) : List CallbackReq → List HandlerRun
  | [] => []
  | r :: rs =>
    if (handleCallback r.code r.resp lines).exited then
      [handleCallback r.code r.resp lines]
    else
      handleCallback r.code r.resp lines :: serverRun lines rs

example : handleCallback none ⟨some "t", none⟩ [] = ⟨.badCodeError, false, none⟩ := by decide

example : handleCallback (some "") ⟨some "t", none⟩ [] = ⟨.badCodeError, false, none⟩ := by
  decide

example : handleCallback (some "c") ⟨none, none⟩ [] = ⟨.badTokenError, false, none⟩ := by
  decide

example : oauthWriteChunks "newtok" none ["DROPBOX_REFRESH_TOKEN=old\n"] =
    ["\nDROPBOX_ACCESS_TOKEN=newtok\n"] := by decide

example : oauthWriteChunks "a" (some "r") ["X=1\n", "DROPBOX_ACCESS_TOKEN=old\n"] =
    ["X=1\n", "\nDROPBOX_ACCESS_TOKEN=a\n", "DROPBOX_REFRESH_TOKEN=r\n"] := by decide

/-!  ## File-operations CLI (`dropbox-api.py`)  -/

/-- Where `main` of `dropbox-api.py` ends up after argument dispatch. -/
inductive CliOutcome
  | usageExit
  | missingArgs (c : String)
  | unknown (c : String)
  | ran (c : String)
deriving DecidableEq

/-- Result of `main` of `dropbox-api.py`: dispatch outcome, the `sys.exit`
code if one was raised, whether any HTTP request was issued, and the lines
printed by the dispatch code itself (prints inside the operation functions
are not part of dispatch and are not modelled). -/
structure CliRun where
  outcome : CliOutcome
  exitCode : Option Nat
  network : Bool
  printed : List String
deriving DecidableEq

/-- Whether `list_files` issues its HTTP request: it returns early, before
any request, when the stored access token is missing or empty; a credentials
file that crashes `load_env` also stops it before any request. -/
def listNetwork (envLines : List String) : Bool :=
  match load_env_api envLines with
  | none => false
  | some m => pyTruthy (envGet m "DROPBOX_ACCESS_TOKEN")

/-- `main` of `dropbox-api.py`.  `argv` is `sys.argv` (script name first);
`envLines` is the credentials file, consulted only on dispatch into an
operation.  `download_file`, `delete_file` and `upload_file` issue their
HTTP request unconditionally once dispatched (the model assumes the local
file of `upload` is readable, which only matters past dispatch). -/
def cliMain (argv : List String) (envLines : List String) : CliRun :=
  match argv with
  | _ :: cmd :: rest =>
    if cmd = "list" then
      ⟨.ran cmd, none, listNetwork envLines, []⟩
    else if cmd = "download" then
      if rest.length < 2 then
        ⟨.missingArgs cmd, some 1,  false,
          ["Usage: python3 dropbox-api.py download <remote_path> <local_path>"]⟩
      else ⟨.ran cmd, none, true, []⟩
    else if cmd = "delete" then
      if rest.length < 1 then
        ⟨.missingArgs cmd, some 1, false,
          ["Usage: python3 dropbox-api.py delete <remote_path>"]⟩
      else ⟨.ran cmd, none, true, []⟩
    else if cmd = "upload" then
      if rest.length < 2 then
        ⟨.missingArgs cmd, some 1, false,
          ["Usage: python3 dropbox-api.py upload <local_path> <remote_path>"]⟩
      else ⟨.ran cmd, none, true, []⟩
    else
      ⟨.unknown cmd, some 1, false,
        ["Unknown command: " ++ cmd, "Available commands: list, download, delete, upload"]⟩
  | _ =>
    ⟨.usageExit, some 1, false,
      ["Usage: python3 dropbox-api.py [list|download|delete|upload] [args...]"]⟩

example : (cliMain ["dropbox-api.py"] []).exitCode = some 1 := by decide

example : cliMain ["dropbox-api.py", "download", "a"] [] =
    ⟨.missingArgs "download", some 1, false,
      ["Usage: python3 dropbox-api.py download <remote_path> <local_path>"]⟩ := by decide

example : (cliMain ["dropbox-api.py", "frobnicate"] []).printed.contains
    "Available commands: list, download, delete, upload" = true := by decide

example : (cliMain ["dropbox-api.py", "delete", "/x"] []).network = true := by decide

/-!  ## Logical lines and keys of a written file

The scripts write a file as a sequence of strings (`writelines` plus
`write` calls); the resulting file content is their concatenation.  To state
the at-most-one-line-per-key invariant we recover the logical lines of that
content by splitting at every newline. -/

/-- Split a character list at every `'\n'` (a trailing newline yields a
final empty piece, as in `str.split`). -/
def splitLinesC : List Char → List (List Char)
  | [] => [[]]
  | c :: cs =>
    if c = '\n' then [] :: splitLinesC cs
    else
      match splitLinesC cs with
      | [] => [[c]]
      | h :: t => (c :: h) :: t

/-- The key of a logical line: the part before the first `'='`, defined
only for lines that contain an `'='` (blank lines and comment lines carry
no credential key). -/
def lineKeyC (cs : List Char) : Option (List Char) :=
  if hasChar cs '=' then some (chKeyAux cs) else none

/-- The keys carried by a list of logical lines, in order. -/
def keysOfC (ls : List (List Char)) : List (List Char) :=
  ls.filterMap lineKeyC

/-- The file content produced by writing the given strings in order. -/
def contentOf (chunks : List String) : List Char :=
  (chunks.map String.data).flatten

/-- The logical lines of the file produced by writing the given strings. -/
def fileLinesC (chunks : List String) : List (List Char) :=
  splitLinesC (contentOf chunks)

/-- The keys of a list of raw lines taken verbatim (used to relate raw lines
to logical lines). -/
def rawKeys (lines : List String) : List (List Char) :=
  keysOfC (lines.map String.data)

/-- A well-formed raw line as produced by iterating over a text file: it
ends with a newline and contains no interior newline. -/
def wfRawLine (l : String) : Bool :=
  match l.data.getLast? with
  | some c => c = '\n' && !(hasChar l.data.dropLast '\n')
  | none => false

example : splitLinesC ("a=1\nb=2\n").data = [['a', '=', '1'], ['b', '=', '2'], []] := by
  decide

example : fileLinesC ["DROPBOX_REFRESH_TOKEN=r\n", "\nDROPBOX_ACCESS_TOKEN=t\n"] =
    [("DROPBOX_REFRESH_TOKEN=r").data, [], ("DROPBOX_ACCESS_TOKEN=t").data, []] := by decide

example : keysOfC (fileLinesC ["X=1\n", "# c\n", "\n", "Y=2\n"]) =
    [['X'], ['Y']] := by decide

example : wfRawLine "A=1\n" = true ∧ wfRawLine "A=1" = false ∧ wfRawLine "a\nb\n" = false := by
  decide

/-!  ## Helper lemmas  -/

theorem hasChar_append (a b : List Char) (x : Char) :
    hasChar (a ++ b) x = (hasChar a x || hasChar b x) := by
  simp [hasChar]

theorem hasChar_cons (c : Char) (cs : List Char) (x : Char) :
    hasChar (c :: cs) x = (decide (c = x) || hasChar cs x) := by
  simp [hasChar]

theorem chKeyAux_append_of_not (a b : List Char) (h : hasChar a '=' = false) :
    chKeyAux (a ++ b) = a ++ chKeyAux b := by
  induction a with
  | nil => simp
  | cons c cs ih =>
    rw [hasChar_cons] at h
    simp only [Bool.or_eq_false_iff, decide_eq_false_iff_not] at h
    simp [chKeyAux, h.1, ih h.2]

theorem chKeyAux_key (k b : List Char) (h : hasChar k '=' = false) :
    chKeyAux (k ++ '=' :: b) = k := by
  rw [chKeyAux_append_of_not k _ h]
  simp [chKeyAux]

theorem chKeyAux_append_of_has (a b : List Char) (h : hasChar a '=' = true) :
    chKeyAux (a ++ b) = chKeyAux a := by
  induction a with
  | nil => simp [hasChar] at h
  | cons c cs ih =>
    by_cases hc : c = '='
    · subst hc; simp [chKeyAux]
    · rw [hasChar_cons] at h
      have h' : hasChar cs '=' = true := by
        rcases Bool.or_eq_true_iff.mp h with h1 | h1
        · exact absurd (of_decide_eq_true h1) hc
        · exact h1
      simp [chKeyAux, hc, ih h']

theorem line_decomp (cs : List Char) (h : hasChar cs '=' = true) :
    cs = chKeyAux cs ++ '=' :: chAfterEq cs := by
  induction cs with
  | nil => simp [hasChar] at h
  | cons c cs ih =>
    by_cases hc : c = '='
    · subst hc; simp [chKeyAux, chAfterEq]
    · rw [hasChar_cons] at h
      have h' : hasChar cs '=' = true := by
        rcases Bool.or_eq_true_iff.mp h with h1 | h1
        · exact absurd (of_decide_eq_true h1) hc
        · exact h1
      simp only [chKeyAux, chAfterEq, if_neg hc]
      exact congrArg (c :: ·) (ih h')

theorem pyStartsWith_iff (s pre : String) :
    pyStartsWith s pre = true ↔ ∃ t, s.data = pre.data ++ t := by
  unfold pyStartsWith
  rw [List.isPrefixOf_iff_prefix]
  constructor
  · rintro ⟨t, ht⟩; exact ⟨t, ht.symm⟩
  · rintro ⟨t, ht⟩; exact ⟨t, ht.symm⟩

theorem splitLinesC_line (core rest : List Char) (h : hasChar core '\n' = false) :
    splitLinesC (core ++ '\n' :: rest) = core :: splitLinesC rest := by
  induction core with
  | nil => simp [splitLinesC]
  | cons c cs ih =>
    rw [hasChar_cons] at h
    simp only [Bool.or_eq_false_iff, decide_eq_false_iff_not] at h
    rw [List.cons_append]
    rw [show splitLinesC (c :: (cs ++ '\n' :: rest)) =
      if c = '\n' then [] :: splitLinesC (cs ++ '\n' :: rest)
      else
        match splitLinesC (cs ++ '\n' :: rest) with
        | [] => [[c]]
        | h :: t => (c :: h) :: t from rfl]
    rw [if_neg h.1, ih h.2]

theorem wfRawLine_eq (l : String) (h : wfRawLine l = true) :
    l.data = l.data.dropLast ++ ['\n'] ∧ hasChar l.data.dropLast '\n' = false := by
  unfold wfRawLine at h
  cases hl : l.data.getLast? with
  | none => rw [hl] at h; simp at h
  | some c =>
    rw [hl] at h
    simp only [Bool.and_eq_true, decide_eq_true_eq, Bool.not_eq_true'] at h
    have hne : l.data ≠ [] := by
      intro hnil; rw [hnil] at hl; simp at hl
    refine ⟨?_, h.2⟩
    have hg : l.data.getLast hne = c := by
      have := List.getLast?_eq_getLast l.data hne
      rw [hl] at this
      exact (Option.some.injEq _ _ ▸ this.symm)
    have := List.dropLast_concat_getLast hne
    rw [hg, h.1] at this
    exact this.symm

theorem wfRawLine_concat (s : String) (hs : hasChar s.data '\n' = false) :
    wfRawLine (s ++ "\n") = true := by
  unfold wfRawLine
  have hd : (s ++ "\n").data = s.data ++ ['\n'] := by
    rw [String.data_append]
  rw [hd, List.getLast?_concat, List.dropLast_concat, hs]
  simp

theorem splitLinesC_flatten (chunks : List String) (tail : List Char)
    (h : chunks.all wfRawLine = true) :
    splitLinesC ((chunks.map String.data).flatten ++ tail) =
      chunks.map (fun l => l.data.dropLast) ++ splitLinesC tail := by
  induction chunks with
  | nil => simp
  | cons l ls ih =>
    simp only [List.all_cons, Bool.and_eq_true] at h
    obtain ⟨he, hn⟩ := wfRawLine_eq l h.1
    simp only [List.map_cons, List.flatten_cons, List.append_assoc]
    rw [he, List.append_assoc, List.singleton_append,
      splitLinesC_line _ _ hn, ih h.2]
    simp

theorem lineKeyC_concat_nl (core : List Char) :
    lineKeyC (core ++ ['\n']) = lineKeyC core := by
  unfold lineKeyC
  rw [hasChar_append]
  rw [show hasChar ['\n'] '=' = false from rfl, Bool.or_false]
  by_cases h : hasChar core '=' = true
  · rw [h]
    simp [chKeyAux_append_of_has core _ h]
  · rw [Bool.not_eq_true] at h
    rw [h]
    simp

theorem filterMapCongr {α β : Type} (f g : α → Option β) :
    ∀ l : List α, (∀ a ∈ l, f a = g a) → l.filterMap f = l.filterMap g := by
  intro l
  induction l with
  | nil => intro _; rfl
  | cons a as ih =>
    intro h
    rw [List.filterMap_cons, List.filterMap_cons, h a (List.mem_cons_self a as),
      ih (fun x hx => h x (List.mem_cons_of_mem a hx))]

theorem keysOf_fileLines_wf (chunks : List String) (h : chunks.all wfRawLine = true) :
    keysOfC (fileLinesC chunks) = rawKeys chunks := by
  unfold fileLinesC contentOf rawKeys keysOfC
  have hs := splitLinesC_flatten chunks [] h
  rw [List.append_nil] at hs
  rw [hs, List.filterMap_append]
  rw [show List.filterMap lineKeyC (splitLinesC []) = [] from rfl, List.append_nil]
  rw [List.filterMap_map, List.filterMap_map]
  apply filterMapCongr
  intro l hl
  have hw : wfRawLine l = true := (List.all_eq_true.mp h) l hl
  obtain ⟨he, _⟩ := wfRawLine_eq l hw
  show lineKeyC l.data.dropLast = lineKeyC l.data
  conv_rhs => rw [he]
  rw [lineKeyC_concat_nl]

theorem chKeyAux_no_eq (cs : List Char) : hasChar (chKeyAux cs) '=' = false := by
  induction cs with
  | nil => rfl
  | cons c cs ih =>
    by_cases hc : c = '='
    · subst hc; simp [chKeyAux, hasChar]
    · simp [chKeyAux, hc, hasChar_cons, ih]

theorem lineKeyC_keyed (k t : List Char) (hk : hasChar k '=' = false) :
    lineKeyC (k ++ '=' :: t) = some k := by
  unfold lineKeyC
  rw [hasChar_append, hk, hasChar_cons]
  rw [show decide ('=' = '=') = true from rfl]
  simp [chKeyAux_key k t hk]

theorem lineKeyC_eq_some (cs k : List Char) (h : lineKeyC cs = some k) :
    cs = k ++ '=' :: chAfterEq cs ∧ hasChar k '=' = false := by
  unfold lineKeyC at h
  by_cases hc : hasChar cs '=' = true
  · rw [if_pos hc] at h
    have hk : chKeyAux cs = k := Option.some.inj h
    refine ⟨?_, ?_⟩
    · rw [← hk]; exact line_decomp cs hc
    · rw [← hk]; exact chKeyAux_no_eq cs
  · rw [if_neg hc] at h
    exact absurd h (Option.noConfusion)

theorem collectExisting_eq_filter (lines : List String) :
    collectExisting lines = lines.filter keepLine := by
  have aux : ∀ (ls : List String) (acc : List String),
      ls.foldl (fun acc line => if keepLine line then acc ++ [line] else acc) acc =
        acc ++ ls.filter keepLine := by
    intro ls
    induction ls with
    | nil => intro acc; simp
    | cons l ls ih =>
      intro acc
      by_cases hl : keepLine l
      · simp [List.filter_cons, hl, ih]
      · simp [List.filter_cons, hl, ih]
  have := aux lines []
  simpa [collectExisting] using this

theorem all_wf_filter (lines : List String) (p : String → Bool)
    (h : lines.all wfRawLine = true) : (lines.filter p).all wfRawLine = true := by
  rw [List.all_eq_true] at h ⊢
  intro l hl
  exact h l (List.mem_of_mem_filter hl)

theorem accessLine_data (tok : String) :
    ("DROPBOX_ACCESS_TOKEN=" ++ tok ++ "\n").data =
      ("DROPBOX_ACCESS_TOKEN").data ++ '=' :: (tok.data ++ ['\n']) := by
  simp [String.data_append]

theorem rawKeys_refreshRewrite (tok : String) (lines : List String) :
    rawKeys (refreshRewrite tok lines) = rawKeys lines := by
  unfold rawKeys keysOfC refreshRewrite
  rw [List.map_map, List.filterMap_map, List.filterMap_map]
  apply filterMapCongr
  intro l _
  show lineKeyC (if pyStartsWith l "DROPBOX_ACCESS_TOKEN=" then
      ("DROPBOX_ACCESS_TOKEN=" ++ tok ++ "\n") else l).data = lineKeyC l.data
  by_cases hp : pyStartsWith l "DROPBOX_ACCESS_TOKEN=" = true
  · rw [if_pos hp]
    obtain ⟨t, ht⟩ := (pyStartsWith_iff l _).mp hp
    rw [accessLine_data, ht]
    rw [show ("DROPBOX_ACCESS_TOKEN=").data = ("DROPBOX_ACCESS_TOKEN").data ++ ['='] from rfl,
      List.append_assoc, List.singleton_append]
    rw [lineKeyC_keyed _ _ (by decide), lineKeyC_keyed _ _ (by decide)]
  · rw [if_neg hp]

theorem wf_refreshRewrite (tok : String) (lines : List String)
    (hl : lines.all wfRawLine = true) (ht : hasChar tok.data '\n' = false) :
    (refreshRewrite tok lines).all wfRawLine = true := by
  unfold refreshRewrite
  rw [List.all_eq_true] at hl
  rw [List.all_eq_true]
  intro l hlm
  obtain ⟨l0, hl0, hrw⟩ := List.mem_map.mp hlm
  by_cases hp : pyStartsWith l0 "DROPBOX_ACCESS_TOKEN=" = true
  · rw [if_pos hp] at hrw
    subst hrw
    rw [show ("DROPBOX_ACCESS_TOKEN=" ++ tok ++ "\n") =
      (("DROPBOX_ACCESS_TOKEN=" ++ tok) ++ "\n") from rfl]
    apply wfRawLine_concat
    rw [String.data_append, hasChar_append, ht]
    rfl
  · rw [if_neg hp] at hrw
    subst hrw
    exact hl l0 hl0

/-- No-newline side condition on an optional refresh token. -/
def optNoNL : Option String → Bool
  | none => true
  | some r => !(hasChar r.data '\n')

theorem oauth_fileLines (tok : String) (rt : Option String) (lines : List String)
    (hl : lines.all wfRawLine = true) (ht : hasChar tok.data '\n' = false)
    (hr : optNoNL rt = true) :
    fileLinesC (oauthWriteChunks tok rt lines) =
      (lines.filter keepLine).map (fun l => l.data.dropLast) ++
        ([] :: ("DROPBOX_ACCESS_TOKEN=" ++ tok).data ::
          (match rt with
           | some r => [("DROPBOX_REFRESH_TOKEN=" ++ r).data, []]
           | none => [[]])) := by
  have hA : hasChar ("DROPBOX_ACCESS_TOKEN=" ++ tok).data '\n' = false := by
    rw [String.data_append, hasChar_append, ht]
    rfl
  have hnl : ("\n" : String).data = ['\n'] := rfl
  cases rt with
  | none =>
    have h1 : contentOf (oauthWriteChunks tok none lines) =
        ((lines.filter keepLine).map String.data).flatten ++
          ('\n' :: (("DROPBOX_ACCESS_TOKEN=" ++ tok).data ++ '\n' :: [])) := by
      unfold contentOf oauthWriteChunks
      rw [collectExisting_eq_filter]
      simp [String.data_append, hnl, List.append_assoc]
    unfold fileLinesC
    rw [h1, splitLinesC_flatten _ _ (all_wf_filter lines keepLine hl)]
    rw [show splitLinesC ('\n' :: (("DROPBOX_ACCESS_TOKEN=" ++ tok).data ++ '\n' :: [])) =
        [] :: splitLinesC (("DROPBOX_ACCESS_TOKEN=" ++ tok).data ++ '\n' :: []) from by
      simp [splitLinesC]]
    rw [splitLinesC_line _ _ hA]
    rfl
  | some r =>
    have hB : hasChar ("DROPBOX_REFRESH_TOKEN=" ++ r).data '\n' = false := by
      rw [String.data_append, hasChar_append]
      rw [show optNoNL (some r) = !(hasChar r.data '\n') from rfl] at hr
      rw [Bool.not_eq_true'] at hr
      rw [hr]
      rfl
    have h1 : contentOf (oauthWriteChunks tok (some r) lines) =
        ((lines.filter keepLine).map String.data).flatten ++
          ('\n' :: (("DROPBOX_ACCESS_TOKEN=" ++ tok).data ++ '\n' ::
            (("DROPBOX_REFRESH_TOKEN=" ++ r).data ++ '\n' :: []))) := by
      unfold contentOf oauthWriteChunks
      rw [collectExisting_eq_filter]
      simp [String.data_append, hnl, List.append_assoc]
    unfold fileLinesC
    rw [h1, splitLinesC_flatten _ _ (all_wf_filter lines keepLine hl)]
    rw [show splitLinesC ('\n' :: (("DROPBOX_ACCESS_TOKEN=" ++ tok).data ++ '\n' ::
          (("DROPBOX_REFRESH_TOKEN=" ++ r).data ++ '\n' :: []))) =
        [] :: splitLinesC (("DROPBOX_ACCESS_TOKEN=" ++ tok).data ++ '\n' ::
          (("DROPBOX_REFRESH_TOKEN=" ++ r).data ++ '\n' :: [])) from by
      simp [splitLinesC]]
    rw [splitLinesC_line _ _ hA, splitLinesC_line _ _ hB]
    rfl

theorem refresh_ok_newLines (lines : List String) (status : Nat) (tok : String)
    (h : (refresh_access_token lines status tok).ok = true) :
    (refresh_access_token lines status tok).newLines = refreshRewrite tok lines := by
  unfold refresh_access_token at h ⊢
  by_cases h1 : pyTruthy (envGet (load_env lines) "DROPBOX_REFRESH_TOKEN") = true
  · rw [if_pos h1] at h ⊢
    by_cases h2 : status = 200
    · rw [if_pos h2]
    · rw [if_neg h2] at h
      exact absurd h (by simp)
  · rw [if_neg h1] at h
    exact absurd h (by simp)

theorem accessLine_starts (tok : String) :
    pyStartsWith ("DROPBOX_ACCESS_TOKEN=" ++ tok ++ "\n") "DROPBOX_ACCESS_TOKEN=" = true := by
  apply (pyStartsWith_iff _ _).mpr
  exact ⟨tok.data ++ ['\n'], by simp [String.data_append]⟩

theorem refresh_frame (tok : String) (lines : List String) :
    (refreshRewrite tok lines).filter (fun l => !(pyStartsWith l "DROPBOX_ACCESS_TOKEN=")) =
      lines.filter (fun l => !(pyStartsWith l "DROPBOX_ACCESS_TOKEN=")) := by
  induction lines with
  | nil => rfl
  | cons l ls ih =>
    rw [show refreshRewrite tok (l :: ls) =
      (if pyStartsWith l "DROPBOX_ACCESS_TOKEN=" then "DROPBOX_ACCESS_TOKEN=" ++ tok ++ "\n"
       else l) :: refreshRewrite tok ls from rfl]
    by_cases hp : pyStartsWith l "DROPBOX_ACCESS_TOKEN=" = true
    · rw [if_pos hp, List.filter_cons, List.filter_cons]
      rw [accessLine_starts tok, hp]
      simpa using ih
    · rw [if_neg hp, List.filter_cons, List.filter_cons]
      rw [Bool.not_eq_true] at hp
      rw [hp]
      simpa using ih

/-- C1: on a successful refresh, `refresh_access_token` rewrites only the
access-token line: the lines not starting with `DROPBOX_ACCESS_TOKEN=`
appear in the output byte-identical and in the same relative order as in
the input. -/
theorem claim1_refresh_frame (lines : List String) (status : Nat) (tok : String)
    (h : (refresh_access_token lines status tok).ok = true) :
    ((refresh_access_token lines status tok).newLines).filter
        (fun l => !(pyStartsWith l "DROPBOX_ACCESS_TOKEN=")) =
      lines.filter (fun l => !(pyStartsWith l "DROPBOX_ACCESS_TOKEN=")) := by
  rw [refresh_ok_newLines lines status tok h]
  exact refresh_frame tok lines

/-- Witness for C1 at a concrete credentials file and a successful (HTTP
200) refresh. -/
theorem claim1_refresh_frame_witness :
    (["DROPBOX_REFRESH_TOKEN=r\n", "OTHER=x\n", "DROPBOX_ACCESS_TOKEN=old\n"].filter
        (fun l => !(pyStartsWith l "DROPBOX_ACCESS_TOKEN=")) =
      ["DROPBOX_REFRESH_TOKEN=r\n", "OTHER=x\n"]) ∧
    ((refresh_access_token ["DROPBOX_REFRESH_TOKEN=r\n", "OTHER=x\n",
        "DROPBOX_ACCESS_TOKEN=old\n"] 200 "new").newLines).filter
        (fun l => !(pyStartsWith l "DROPBOX_ACCESS_TOKEN=")) =
      ["DROPBOX_REFRESH_TOKEN=r\n", "OTHER=x\n", "DROPBOX_ACCESS_TOKEN=old\n"].filter
        (fun l => !(pyStartsWith l "DROPBOX_ACCESS_TOKEN=")) :=
  ⟨by decide,
   claim1_refresh_frame ["DROPBOX_REFRESH_TOKEN=r\n", "OTHER=x\n",
     "DROPBOX_ACCESS_TOKEN=old\n"] 200 "new" (by decide)⟩

/-- Counterexample to C3 as stated: on a credentials file containing no
`DROPBOX_ACCESS_TOKEN=` line, `refresh_access_token` succeeds (HTTP 200) yet
the output file still contains no `DROPBOX_ACCESS_TOKEN=` line — the code
replaces in place and never appends. -/
theorem claim3_counterexample :
    (refresh_access_token ["DROPBOX_REFRESH_TOKEN=r\n"] 200 "newtok").ok = true ∧
    ((refresh_access_token ["DROPBOX_REFRESH_TOKEN=r\n"] 200 "newtok").newLines).all
        (fun l => !(pyStartsWith l "DROPBOX_ACCESS_TOKEN=")) = true := by
  constructor
  · decide
  · decide

/-- C3 (amended): on a successful refresh, if the input file contains a
`DROPBOX_ACCESS_TOKEN=` line then the output contains the new-token line;
if it contains none, the file is written back unchanged and no access-token
line is appended. -/
theorem claim3_replace_or_unchanged (lines : List String) (status : Nat) (tok : String)
    (h : (refresh_access_token lines status tok).ok = true) :
    (lines.any (fun l => pyStartsWith l "DROPBOX_ACCESS_TOKEN=") = true →
       ("DROPBOX_ACCESS_TOKEN=" ++ tok ++ "\n") ∈
         (refresh_access_token lines status tok).newLines) ∧
    (lines.any (fun l => pyStartsWith l "DROPBOX_ACCESS_TOKEN=") = false →
       (refresh_access_token lines status tok).newLines = lines) := by
  rw [refresh_ok_newLines lines status tok h]
  constructor
  · intro ha
    obtain ⟨l, hl, hp⟩ := List.any_eq_true.mp ha
    unfold refreshRewrite
    exact List.mem_map.mpr ⟨l, hl, by rw [if_pos hp]⟩
  · intro ha
    unfold refreshRewrite
    have hall : ∀ l ∈ lines,
        (if pyStartsWith l "DROPBOX_ACCESS_TOKEN=" then
          "DROPBOX_ACCESS_TOKEN=" ++ tok ++ "\n" else l) = l := by
      intro l hl
      have hnp := List.any_eq_false.mp ha l hl
      rw [if_neg hnp]
    rw [List.map_congr_left hall, List.map_id']

/-- Witness for C3 (amended) at a concrete file that does contain an
access-token line. -/
theorem claim3_replace_or_unchanged_witness :
    ("DROPBOX_ACCESS_TOKEN=new\n") ∈
      (refresh_access_token ["DROPBOX_REFRESH_TOKEN=r\n", "DROPBOX_ACCESS_TOKEN=old\n"]
        200 "new").newLines := by
  have h := claim3_replace_or_unchanged
    ["DROPBOX_REFRESH_TOKEN=r\n", "DROPBOX_ACCESS_TOKEN=old\n"] 200 "new" (by decide)
  have h2 := h.1 (by decide)
  rw [show ("DROPBOX_ACCESS_TOKEN=" ++ "new" ++ "\n") = "DROPBOX_ACCESS_TOKEN=new\n"
    from rfl] at h2
  exact h2

/-- The separator-plus-access-token chunk written by `do_GET` never starts
with the refresh-token key (it starts with a newline). -/
theorem sepChunk_not_refresh (tok : String) :
    pyStartsWith ("\n" ++ "DROPBOX_ACCESS_TOKEN=" ++ tok ++ "\n") "DROPBOX_REFRESH_TOKEN=" =
      false := by
  unfold pyStartsWith
  rw [show ("\n" ++ "DROPBOX_ACCESS_TOKEN=" ++ tok ++ "\n").data =
    '\n' :: ("DROPBOX_ACCESS_TOKEN=".data ++ (tok.data ++ "\n".data)) from by
      simp [String.data_append]]
  rfl

/-- Counterexample to C2 as stated: with a token response carrying an
`access_token` but no `refresh_token`, the store rewrite of the
Authorization Flow Runner deletes a `DROPBOX_REFRESH_TOKEN` line that was
present in the input file — afterwards no line of the written file starts
with `DROPBOX_REFRESH_TOKEN=`. -/
theorem claim2_counterexample :
    (["DROPBOX_REFRESH_TOKEN=old\n"].any
        (fun l => pyStartsWith l "DROPBOX_REFRESH_TOKEN=") = true) ∧
    oauthWriteChunks "newtok" none ["DROPBOX_REFRESH_TOKEN=old\n"] =
      ["\nDROPBOX_ACCESS_TOKEN=newtok\n"] ∧
    (fileLinesC (oauthWriteChunks "newtok" none ["DROPBOX_REFRESH_TOKEN=old\n"])).all
        (fun l => !(("DROPBOX_REFRESH_TOKEN=").data.isPrefixOf l)) = true := by
  refine ⟨by decide, by decide, by decide⟩

/-- C2 (amended): when the token response contains `access_token` but no
`refresh_token`, the rewrite keeps, in order, exactly the input lines
starting with neither `DROPBOX_ACCESS_TOKEN=` nor `DROPBOX_REFRESH_TOKEN=`,
and appends a separating newline plus the new access-token line; no written
chunk starts with `DROPBOX_REFRESH_TOKEN=` — a refresh-token line already
present in the file is removed, not preserved. -/
theorem claim2_amended (lines : List String) (tok : String) :
    oauthWriteChunks tok none lines =
      lines.filter keepLine ++ ["\n" ++ "DROPBOX_ACCESS_TOKEN=" ++ tok ++ "\n"] ∧
    (oauthWriteChunks tok none lines).all
        (fun chunk => !(pyStartsWith chunk "DROPBOX_REFRESH_TOKEN=")) = true := by
  have h1 : oauthWriteChunks tok none lines =
      lines.filter keepLine ++ ["\n" ++ "DROPBOX_ACCESS_TOKEN=" ++ tok ++ "\n"] := by
    unfold oauthWriteChunks
    rw [collectExisting_eq_filter]
    simp
  refine ⟨h1, ?_⟩
  rw [h1, List.all_append, Bool.and_eq_true]
  constructor
  · rw [List.all_eq_true]
    intro l hl
    have hk := (List.mem_filter.mp hl).2
    unfold keepLine at hk
    rw [Bool.and_eq_true] at hk
    exact hk.2
  · simp only [List.all_cons, List.all_nil, Bool.and_true]
    rw [Bool.not_eq_true']
    exact sepChunk_not_refresh tok

/-- C4: when a stored access token is present (so the probe request is
issued), `test_token`'s outcome is determined solely by the HTTP status:
healthy exactly on 200, expired exactly on 401, error exactly otherwise
(the three outcomes are mutually exclusive constructors). -/
theorem claim4_probe_outcomes (lines : List String) (status : Nat)
    (h : pyTruthy (envGet (load_env lines) "DROPBOX_ACCESS_TOKEN") = true) :
    ((test_token lines status).outcome = .healthy ↔ status = 200) ∧
    ((test_token lines status).outcome = .expired ↔ status = 401) ∧
    ((test_token lines status).outcome = .apiError ↔ (status ≠ 200 ∧ status ≠ 401)) := by
  unfold test_token
  rw [if_pos h]
  by_cases h2 : status = 200
  · subst h2
    rw [if_pos rfl]
    refine ⟨by simp, ?_, ?_⟩
    · constructor
      · intro hx; exact absurd hx (by decide)
      · intro hx; exact absurd hx (by decide)
    · constructor
      · intro hx; exact absurd hx (by decide)
      · intro hx; exact absurd rfl hx.1
  · rw [if_neg h2]
    by_cases h3 : status = 401
    · subst h3
      rw [if_pos rfl]
      refine ⟨?_, by simp, ?_⟩
      · constructor
        · intro hx; exact absurd hx (by decide)
        · intro hx; exact absurd hx h2
      · constructor
        · intro hx; exact absurd hx (by decide)
        · intro hx; exact absurd rfl hx.2
    · rw [if_neg h3]
      refine ⟨?_, ?_, ?_⟩
      · constructor
        · intro hx; exact absurd hx (by decide)
        · intro hx; exact absurd hx h2
      · constructor
        · intro hx; exact absurd hx (by decide)
        · intro hx; exact absurd hx h3
      · exact ⟨fun _ => ⟨h2, h3⟩, fun _ => rfl⟩

/-- Witness for C4 at a concrete stored token and status 401. -/
theorem claim4_probe_outcomes_witness :
    pyTruthy (envGet (load_env ["DROPBOX_ACCESS_TOKEN=abc\n"]) "DROPBOX_ACCESS_TOKEN") =
      true ∧
    ((test_token ["DROPBOX_ACCESS_TOKEN=abc\n"] 401).outcome = .expired ↔ (401 : Nat) = 401) :=
  ⟨by decide,
   (claim4_probe_outcomes ["DROPBOX_ACCESS_TOKEN=abc\n"] 401 (by decide)).2.1⟩

/-- C10: with the required credential missing (or empty, which Python's
truthiness also rejects), `test_token` and `refresh_access_token` fail
early: no HTTP request is issued, the function returns `False`, and the
credentials file is untouched (`test_token` never writes the file at all;
`refresh_access_token` leaves it as it was). -/
theorem claim10_missing_credentials (lines : List String) (status : Nat) (tok : String) :
    (pyTruthy (envGet (load_env lines) "DROPBOX_ACCESS_TOKEN") = false →
       (test_token lines status).network = false ∧ (test_token lines status).result = false) ∧
    (pyTruthy (envGet (load_env lines) "DROPBOX_REFRESH_TOKEN") = false →
       (refresh_access_token lines status tok).network = false ∧
       (refresh_access_token lines status tok).ok = false ∧
       (refresh_access_token lines status tok).newLines = lines) := by
  constructor
  · intro h
    unfold test_token
    rw [if_neg (by simp [h])]
    exact ⟨rfl, rfl⟩
  · intro h
    unfold refresh_access_token
    rw [if_neg (by simp [h])]
    exact ⟨rfl, rfl, rfl⟩

/-- Witness for C10 at a concrete credentials file with neither token. -/
theorem claim10_missing_credentials_witness :
    ((test_token ["X=1\n"] 200).network = false ∧ (test_token ["X=1\n"] 200).result = false) ∧
    (refresh_access_token ["X=1\n"] 200 "t").newLines = ["X=1\n"] := by
  have h := claim10_missing_credentials ["X=1\n"] 200 "t"
  exact ⟨h.1 (by decide), (h.2 (by decide)).2.2⟩

theorem envStepApi_eq (m : List (String × String)) (line : String) :
    envStepApi (some m) line = if goodLineB line then some (envStep m line) else none := by
  unfold envStepApi envStep goodLineB
  by_cases hE : (pyStrip line).data.isEmpty = true
  · simp [hE]
  · by_cases hH : pyStartsWith (pyStrip line) "#" = true
    · simp [hE, hH]
    · by_cases hQ : hasChar (pyStrip line).data '=' = true
      · simp [hE, hH, hQ]
      · simp [hE, hH, hQ]

theorem foldl_api_none (lines : List String) : lines.foldl envStepApi none = none := by
  induction lines with
  | nil => rfl
  | cons l ls ih => exact ih

theorem isSome_foldl_api (lines : List String) :
    ∀ m : List (String × String),
      (lines.foldl envStepApi (some m)).isSome = lines.all goodLineB := by
  induction lines with
  | nil => intro m; rfl
  | cons l ls ih =>
    intro m
    rw [List.foldl_cons, envStepApi_eq, List.all_cons]
    by_cases hg : goodLineB l = true
    · rw [if_pos hg, ih, hg, Bool.true_and]
    · rw [Bool.not_eq_true] at hg
      rw [if_neg (by simp [hg]), foldl_api_none, hg, Bool.false_and]
      rfl

theorem envStep_bad (m : List (String × String)) (line : String)
    (h : goodLineB line = false) : envStep m line = m := by
  unfold envStep
  unfold goodLineB at h
  simp only [Bool.or_eq_false_iff] at h
  rw [if_pos (by simp [h.1.1, h.1.2]), if_neg (by simp [h.2])]

theorem foldl_env_filter (lines : List String) :
    ∀ m : List (String × String),
      (lines.filter goodLineB).foldl envStep m = lines.foldl envStep m := by
  induction lines with
  | nil => intro m; rfl
  | cons l ls ih =>
    intro m
    by_cases hg : goodLineB l = true
    · rw [List.filter_cons_of_pos hg, List.foldl_cons, List.foldl_cons, ih]
    · rw [Bool.not_eq_true] at hg
      rw [List.filter_cons_of_neg (by simp [hg]), List.foldl_cons, envStep_bad m l hg, ih]

theorem foldl_api_good (lines : List String) :
    ∀ m : List (String × String), lines.all goodLineB = true →
      lines.foldl envStepApi (some m) = some (lines.foldl envStep m) := by
  induction lines with
  | nil => intro m _; rfl
  | cons l ls ih =>
    intro m h
    rw [List.all_cons, Bool.and_eq_true] at h
    rw [List.foldl_cons, envStepApi_eq, if_pos h.1, List.foldl_cons, ih _ h.2]

/-- C9: `dropbox-api.py`'s `load_env` succeeds exactly when every non-empty,
non-comment line of the file contains an `'='` (otherwise the unpacking of
`line.split('=', 1)` raises an unhandled `ValueError`, modelled as `none`);
`dropbox-refresh-token.py`'s `load_env` is total and silently skips such
lines — on the well-formed sub-file the two parsers agree exactly. -/
theorem claim9_parser_totality (lines : List String) :
    ((load_env_api lines).isSome = lines.all goodLineB) ∧
    (load_env_api (lines.filter goodLineB) = some (load_env lines)) := by
  constructor
  · exact isSome_foldl_api lines []
  · unfold load_env_api load_env
    rw [foldl_api_good _ _ (by
      rw [List.all_eq_true]
      intro l hl
      exact (List.mem_filter.mp hl).2)]
    rw [foldl_env_filter]

/-- C8: the file-operations CLI exits with code 1 and issues no HTTP request
when called with no command, or with `download`/`delete`/`upload` short of
their required arguments (two, one, two extra arguments respectively); an
unknown command also exits with code 1, without network traffic, after
printing the list of available commands. -/
theorem claim8_cli_arg_validation (argv : List String) (envLines : List String) :
    (argv.length < 2 →
       (cliMain argv envLines).exitCode = some 1 ∧
       (cliMain argv envLines).network = false) ∧
    (∀ a rest, argv = a :: "download" :: rest → rest.length < 2 →
       cliMain argv envLines = ⟨.missingArgs "download", some 1, false,
         ["Usage: python3 dropbox-api.py download <remote_path> <local_path>"]⟩) ∧
    (∀ a rest, argv = a :: "delete" :: rest → rest.length < 1 →
       cliMain argv envLines = ⟨.missingArgs "delete", some 1, false,
         ["Usage: python3 dropbox-api.py delete <remote_path>"]⟩) ∧
    (∀ a rest, argv = a :: "upload" :: rest → rest.length < 2 →
       cliMain argv envLines = ⟨.missingArgs "upload", some 1, false,
         ["Usage: python3 dropbox-api.py upload <local_path> <remote_path>"]⟩) ∧
    (∀ a c rest, argv = a :: c :: rest →
       c ≠ "list" → c ≠ "download" → c ≠ "delete" → c ≠ "upload" →
       (cliMain argv envLines).exitCode = some 1 ∧
       (cliMain argv envLines).network = false ∧
       "Available commands: list, download, delete, upload" ∈
         (cliMain argv envLines).printed) := by
  refine ⟨?_, ?_, ?_, ?_, ?_⟩
  · intro hlen
    match argv with
    | [] => exact ⟨rfl, rfl⟩
    | [a] => exact ⟨rfl, rfl⟩
    | a :: b :: t => simp at hlen; omega
  · intro a rest ha hlen
    subst ha
    simp [cliMain, hlen]
  · intro a rest ha hlen
    subst ha
    simp [cliMain, hlen]
  · intro a rest ha hlen
    subst ha
    simp [cliMain, hlen]
  · intro a c rest ha h1 h2 h3 h4
    subst ha
    refine ⟨?_, ?_, ?_⟩ <;> simp [cliMain, h1, h2, h3, h4]

/-- Witness for C8: the no-argument call, a short `upload` call, and an
unknown command, each at concrete argument vectors. -/
theorem claim8_cli_arg_validation_witness :
    ((cliMain ["dropbox-api.py"] []).exitCode = some 1 ∧
      (cliMain ["dropbox-api.py"] []).network = false) ∧
    cliMain ["dropbox-api.py", "upload", "x"] [] = ⟨.missingArgs "upload", some 1, false,
      ["Usage: python3 dropbox-api.py upload <local_path> <remote_path>"]⟩ ∧
    "Available commands: list, download, delete, upload" ∈
      (cliMain ["dropbox-api.py", "frobnicate"] []).printed := by
  have h1 := claim8_cli_arg_validation ["dropbox-api.py"] []
  have h2 := claim8_cli_arg_validation ["dropbox-api.py", "upload", "x"] []
  have h3 := claim8_cli_arg_validation ["dropbox-api.py", "frobnicate"] []
  exact ⟨h1.1 (by decide),
    h2.2.2.2.1 "dropbox-api.py" ["x"] rfl (by decide),
    (h3.2.2.2.2 "dropbox-api.py" "frobnicate" [] rfl (by decide) (by decide) (by decide)
      (by decide)).2.2⟩

theorem handleCallback_exited (c : Option String) (tr : TokenResp) (lines : List String) :
    (handleCallback c tr lines).exited = (pyTruthy c && tr.access.isSome) := by
  cases tr with
  | mk acc rfr =>
    unfold handleCallback
    by_cases hc : pyTruthy c = true
    · rw [if_pos hc, hc, Bool.true_and]
      cases acc with
      | some t => rfl
      | none => rfl
    · rw [if_neg hc]
      rw [Bool.not_eq_true] at hc
      rw [hc, Bool.false_and]

theorem serverRun_eq (lines : List String) (reqs : List CallbackReq) :
    serverRun lines reqs =
      ((reqs.takeWhile (fun r => !isSuccessReq r)) ++
        (reqs.dropWhile (fun r => !isSuccessReq r)).take 1).map
          (fun r => handleCallback r.code r.resp lines) := by
  induction reqs with
  | nil => rfl
  | cons r rs ih =>
    simp only [serverRun]
    by_cases hs : isSuccessReq r = true
    · have he : (handleCallback r.code r.resp lines).exited = true := by
        rw [handleCallback_exited]
        exact hs
      rw [if_pos he]
      simp [List.takeWhile_cons, List.dropWhile_cons, hs]
    · have he : (handleCallback r.code r.resp lines).exited = false := by
        rw [handleCallback_exited]
        rw [Bool.not_eq_true] at hs
        exact hs
      rw [if_neg (by simp [he]), ih]
      rw [Bool.not_eq_true] at hs
      simp [List.takeWhile_cons, List.dropWhile_cons, hs]

theorem serverRun_any (lines : List String) (reqs : List CallbackReq) :
    (serverRun lines reqs).any (fun h => h.exited) = reqs.any isSuccessReq := by
  induction reqs with
  | nil => rfl
  | cons r rs ih =>
    simp only [serverRun, List.any_cons]
    by_cases hs : isSuccessReq r = true
    · have he : (handleCallback r.code r.resp lines).exited = true := by
        rw [handleCallback_exited]; exact hs
      rw [if_pos he]
      simp [he, hs]
    · have he : (handleCallback r.code r.resp lines).exited = false := by
        rw [handleCallback_exited]
        rw [Bool.not_eq_true] at hs
        exact hs
      rw [if_neg (by simp [he])]
      simp [he, hs, ih]

/-- C6: a callback whose query lacks a truthy `code`, or whose token
exchange yields no `access_token`, is answered with an HTTP 400 error
(`badCodeError` / `badTokenError`), does not write the store, and does not
terminate the process; `os._exit(0)` runs exactly when the exchange response
contains `access_token` — so the server processes requests up to and
including the first successful exchange and stops exactly there, running
forever (processing every request) when none succeeds. -/
theorem claim6_exit_only_on_success (lines : List String) (reqs : List CallbackReq)
    (c : Option String) (tr : TokenResp) :
    ((handleCallback c tr lines).exited = (pyTruthy c && tr.access.isSome)) ∧
    (pyTruthy c = false →
       (handleCallback c tr lines).response = .badCodeError ∧
       (handleCallback c tr lines).exited = false ∧
       (handleCallback c tr lines).newStore = none) ∧
    (pyTruthy c = true → tr.access = none →
       (handleCallback c tr lines).response = .badTokenError ∧
       (handleCallback c tr lines).exited = false ∧
       (handleCallback c tr lines).newStore = none) ∧
    (serverRun lines reqs =
       ((reqs.takeWhile (fun r => !isSuccessReq r)) ++
         (reqs.dropWhile (fun r => !isSuccessReq r)).take 1).map
           (fun r => handleCallback r.code r.resp lines)) ∧
    ((serverRun lines reqs).any (fun h => h.exited) = reqs.any isSuccessReq) := by
  refine ⟨handleCallback_exited c tr lines, ?_, ?_, serverRun_eq lines reqs,
    serverRun_any lines reqs⟩
  · intro h
    unfold handleCallback
    rw [if_neg (by simp [h])]
    exact ⟨rfl, rfl, rfl⟩
  · cases tr with
    | mk acc rfr =>
      intro h1 h2
      simp only at h2
      subst h2
      unfold handleCallback
      rw [if_pos h1]
      exact ⟨rfl, rfl, rfl⟩

/-- Witness for C6: a missing code and a token-less response at concrete
requests. -/
theorem claim6_exit_only_on_success_witness :
    ((handleCallback none ⟨some "t", none⟩ []).response = .badCodeError ∧
      (handleCallback none ⟨some "t", none⟩ []).exited = false ∧
      (handleCallback none ⟨some "t", none⟩ []).newStore = none) ∧
    ((handleCallback (some "c") ⟨none, none⟩ []).response = .badTokenError ∧
      (handleCallback (some "c") ⟨none, none⟩ []).exited = false ∧
      (handleCallback (some "c") ⟨none, none⟩ []).newStore = none) := by
  have h1 := claim6_exit_only_on_success [] [] none ⟨some "t", none⟩
  have h2 := claim6_exit_only_on_success [] [] (some "c") ⟨none, none⟩
  exact ⟨h1.2.1 (by decide), h2.2.2.1 (by decide) rfl⟩

/-- Counterexample to C5 as stated: with a stored token and an initial probe
status of 500 (an error: neither 200 nor 401), `main` still attempts the
refresh — the probe's boolean return conflates `expired` and `error`, so an
error does trigger a refresh, contrary to the claim. -/
theorem claim5_counterexample :
    (test_token ["DROPBOX_ACCESS_TOKEN=t\n", "DROPBOX_REFRESH_TOKEN=r\n"] 500).outcome =
      .apiError ∧
    mainTrace ⟨["DROPBOX_ACCESS_TOKEN=t\n", "DROPBOX_REFRESH_TOKEN=r\n"],
        500, 200, "new", 200⟩ =
      [.probe .apiError, .refreshStep true, .probe .healthy] := by
  refine ⟨by decide, by decide⟩

/-- C5 (amended): `main` performs at most one refresh, never a loop; the
refresh is attempted exactly when the initial probe returns `False` — which
happens on 401, but also on any other non-200 status and on a missing
token; after a successful refresh exactly one confirming probe runs against
the rewritten file, and after a failed refresh nothing else runs. -/
theorem claim5_orchestration_amended (w : World) :
    ((mainTrace w).countP isRefreshStep ≤ 1) ∧
    ((mainTrace w).any isRefreshStep = !(test_token w.fileLines w.s1).result) ∧
    ((test_token w.fileLines w.s1).result = true →
       mainTrace w = [Step.probe (test_token w.fileLines w.s1).outcome]) ∧
    ((test_token w.fileLines w.s1).result = false →
       (refresh_access_token w.fileLines w.refreshStatus w.newTok).ok = false →
       mainTrace w =
         [Step.probe (test_token w.fileLines w.s1).outcome, Step.refreshStep false]) ∧
    ((test_token w.fileLines w.s1).result = false →
       (refresh_access_token w.fileLines w.refreshStatus w.newTok).ok = true →
       mainTrace w =
         [Step.probe (test_token w.fileLines w.s1).outcome, Step.refreshStep true,
          Step.probe (test_token
            (refresh_access_token w.fileLines w.refreshStatus w.newTok).newLines
            w.s2).outcome]) := by
  unfold mainTrace
  by_cases hr : (test_token w.fileLines w.s1).result = true
  · rw [if_pos hr]
    refine ⟨by simp [isRefreshStep], by simp [isRefreshStep, hr], fun _ => rfl, ?_, ?_⟩
    · intro hf _
      rw [hr] at hf
      exact absurd hf (by decide)
    · intro hf _
      rw [hr] at hf
      exact absurd hf (by decide)
  · rw [Bool.not_eq_true] at hr
    rw [if_neg (by simp [hr])]
    by_cases hk : (refresh_access_token w.fileLines w.refreshStatus w.newTok).ok = true
    · rw [if_pos hk, hk]
      refine ⟨by simp [isRefreshStep], by simp [isRefreshStep, hr], ?_, ?_, fun _ _ => rfl⟩
      · intro hx
        rw [hx] at hr
        exact absurd hr (by decide)
      · intro _ hf
        exact absurd hf (by decide)
    · rw [Bool.not_eq_true] at hk
      rw [if_neg (by simp [hk]), hk]
      refine ⟨by simp [isRefreshStep], by simp [isRefreshStep, hr], ?_, fun _ _ => rfl, ?_⟩
      · intro hx
        rw [hx] at hr
        exact absurd hr (by decide)
      · intro _ hf
        exact absurd hf (by decide)

/-- Witness for C5 (amended): an expired probe followed by a failed refresh
(HTTP 500 from the token endpoint) yields exactly probe-then-refresh with no
second probe. -/
theorem claim5_orchestration_amended_witness :
    mainTrace ⟨["DROPBOX_ACCESS_TOKEN=t\n", "DROPBOX_REFRESH_TOKEN=r\n"],
        401, 500, "new", 200⟩ =
      [Step.probe .expired, Step.refreshStep false] := by
  have h := claim5_orchestration_amended
    ⟨["DROPBOX_ACCESS_TOKEN=t\n", "DROPBOX_REFRESH_TOKEN=r\n"], 401, 500, "new", 200⟩
  have h2 := h.2.2.2.1 (by decide) (by decide)
  rw [show (test_token ["DROPBOX_ACCESS_TOKEN=t\n", "DROPBOX_REFRESH_TOKEN=r\n"]
    401).outcome = .expired from by decide] at h2
  exact h2

theorem lineKeyC_nil : lineKeyC [] = none := rfl

theorem refresh_newLines_cases (lines : List String) (status : Nat) (tok : String) :
    (refresh_access_token lines status tok).newLines = lines ∨
    (refresh_access_token lines status tok).newLines = refreshRewrite tok lines := by
  unfold refresh_access_token
  by_cases h1 : pyTruthy (envGet (load_env lines) "DROPBOX_REFRESH_TOKEN") = true
  · rw [if_pos h1]
    by_cases h2 : status = 200
    · rw [if_pos h2]
      right
      rfl
    · rw [if_neg h2]
      left
      rfl
  · rw [if_neg h1]
    left
    rfl

theorem rawKeys_eq (lines : List String) :
    rawKeys lines = lines.filterMap (fun l => lineKeyC l.data) := by
  unfold rawKeys keysOfC
  rw [List.filterMap_map]
  rfl

theorem keys_cores_filter (lines : List String) (p : String → Bool)
    (hwf : lines.all wfRawLine = true) :
    ((lines.filter p).map (fun l => l.data.dropLast)).filterMap lineKeyC =
      (lines.filter p).filterMap (fun l => lineKeyC l.data) := by
  rw [List.filterMap_map]
  apply filterMapCongr
  intro l hl
  have hw : wfRawLine l = true := List.all_eq_true.mp hwf l (List.mem_of_mem_filter hl)
  obtain ⟨he, _⟩ := wfRawLine_eq l hw
  show lineKeyC l.data.dropLast = lineKeyC l.data
  conv_rhs => rw [he]
  rw [lineKeyC_concat_nl]

theorem keyLine_startsWith (l : String) (k : List Char) (pre : String)
    (hpre : pre.data = k ++ ['=']) (hk : lineKeyC l.data = some k) :
    pyStartsWith l pre = true := by
  obtain ⟨hdec, _⟩ := lineKeyC_eq_some l.data k hk
  apply (pyStartsWith_iff _ _).mpr
  refine ⟨chAfterEq l.data, ?_⟩
  conv_lhs => rw [hdec]
  rw [hpre, List.append_assoc, List.singleton_append]

theorem keepLine_no_token_key (l : String) (h : keepLine l = true) :
    lineKeyC l.data ≠ some ("DROPBOX_ACCESS_TOKEN").data ∧
    lineKeyC l.data ≠ some ("DROPBOX_REFRESH_TOKEN").data := by
  unfold keepLine at h
  rw [Bool.and_eq_true, Bool.not_eq_true', Bool.not_eq_true'] at h
  constructor
  · intro hk
    have := keyLine_startsWith l ("DROPBOX_ACCESS_TOKEN").data "DROPBOX_ACCESS_TOKEN="
      rfl hk
    rw [h.1] at this
    exact absurd this (by decide)
  · intro hk
    have := keyLine_startsWith l ("DROPBOX_REFRESH_TOKEN").data "DROPBOX_REFRESH_TOKEN="
      rfl hk
    rw [h.2] at this
    exact absurd this (by decide)

theorem tokenKey_lineKeyC (tok : String) :
    lineKeyC ("DROPBOX_ACCESS_TOKEN=" ++ tok).data = some ("DROPBOX_ACCESS_TOKEN").data := by
  rw [String.data_append]
  rw [show ("DROPBOX_ACCESS_TOKEN=").data = ("DROPBOX_ACCESS_TOKEN").data ++ ['='] from rfl]
  rw [List.append_assoc, List.singleton_append]
  exact lineKeyC_keyed _ _ (by decide)

theorem refreshKey_lineKeyC (r : String) :
    lineKeyC ("DROPBOX_REFRESH_TOKEN=" ++ r).data = some ("DROPBOX_REFRESH_TOKEN").data := by
  rw [String.data_append]
  rw [show ("DROPBOX_REFRESH_TOKEN=").data = ("DROPBOX_REFRESH_TOKEN").data ++ ['='] from rfl]
  rw [List.append_assoc, List.singleton_append]
  exact lineKeyC_keyed _ _ (by decide)

theorem nodup_keys_filter (lines : List String) (p : String → Bool)
    (hwf : lines.all wfRawLine = true)
    (hnd : (keysOfC (fileLinesC lines)).Nodup) :
    (((lines.filter p).map (fun l => l.data.dropLast)).filterMap lineKeyC).Nodup := by
  rw [keys_cores_filter lines p hwf]
  have hsub : List.Sublist ((lines.filter p).filterMap (fun l => lineKeyC l.data))
      (lines.filterMap (fun l => lineKeyC l.data)) :=
    List.Sublist.filterMap _ (List.filter_sublist lines)
  have hnd2 : (lines.filterMap (fun l => lineKeyC l.data)).Nodup := by
    rw [← rawKeys_eq, ← keysOf_fileLines_wf lines hwf]
    exact hnd
  exact List.Nodup.sublist hsub hnd2

/-- C7: both credential-store rewrites preserve the at-most-one-line-per-key
invariant.  For a well-formed credentials file (newline-terminated lines,
tokens without embedded newlines) whose logical lines carry pairwise
distinct keys, the file left by `refresh_access_token` and the file written
by the Authorization Flow Runner's token write again carry pairwise
distinct keys. -/
theorem claim7_key_uniqueness (lines : List String) (status : Nat) (tok : String)
    (rt : Option String)
    (hwf : lines.all wfRawLine = true)
    (htok : hasChar tok.data '\n' = false)
    (hrt : optNoNL rt = true)
    (hnd : (keysOfC (fileLinesC lines)).Nodup) :
    (keysOfC (fileLinesC (refresh_access_token lines status tok).newLines)).Nodup ∧
    (keysOfC (fileLinesC (oauthWriteChunks tok rt lines))).Nodup := by
  constructor
  · rcases refresh_newLines_cases lines status tok with h | h
    · rw [h]
      exact hnd
    · rw [h]
      rw [keysOf_fileLines_wf _ (wf_refreshRewrite tok lines hwf htok)]
      rw [rawKeys_refreshRewrite]
      rw [← keysOf_fileLines_wf lines hwf]
      exact hnd
  · rw [oauth_fileLines tok rt lines hwf htok hrt]
    unfold keysOfC
    rw [List.filterMap_append]
    have hKmem : ∀ k,
        k ∈ ((lines.filter keepLine).map (fun l => l.data.dropLast)).filterMap lineKeyC →
        k ≠ ("DROPBOX_ACCESS_TOKEN").data ∧ k ≠ ("DROPBOX_REFRESH_TOKEN").data := by
      intro k hk
      rw [keys_cores_filter lines keepLine hwf] at hk
      obtain ⟨l, hl, hfl⟩ := List.mem_filterMap.mp hk
      have hkeep : keepLine l = true := (List.mem_filter.mp hl).2
      have hno := keepLine_no_token_key l hkeep
      constructor
      · intro hEq
        subst hEq
        exact hno.1 hfl
      · intro hEq
        subst hEq
        exact hno.2 hfl
    have hKnd :
        (((lines.filter keepLine).map (fun l => l.data.dropLast)).filterMap lineKeyC).Nodup :=
      nodup_keys_filter lines keepLine hwf hnd
    cases rt with
    | none =>
      rw [show List.filterMap lineKeyC
          ([] :: ("DROPBOX_ACCESS_TOKEN=" ++ tok).data :: [[]]) =
          [("DROPBOX_ACCESS_TOKEN").data] from by
        simp only [List.filterMap_cons, lineKeyC_nil, tokenKey_lineKeyC, List.filterMap_nil]]
      refine List.nodup_append.mpr ⟨hKnd, by decide, ?_⟩
      intro a haK haT
      rw [List.mem_singleton] at haT
      exact (hKmem a haK).1 haT
    | some r =>
      rw [show List.filterMap lineKeyC
          ([] :: ("DROPBOX_ACCESS_TOKEN=" ++ tok).data ::
            [("DROPBOX_REFRESH_TOKEN=" ++ r).data, []]) =
          [("DROPBOX_ACCESS_TOKEN").data, ("DROPBOX_REFRESH_TOKEN").data] from by
        simp only [List.filterMap_cons, lineKeyC_nil, tokenKey_lineKeyC, refreshKey_lineKeyC, List.filterMap_nil]]
      refine List.nodup_append.mpr ⟨hKnd, by decide, ?_⟩
      intro a haK haT
      rcases List.mem_cons.mp haT with h1 | h1
      · exact (hKmem a haK).1 h1
      · rw [List.mem_singleton] at h1
        exact (hKmem a haK).2 h1

/-- Witness for C7 at a concrete well-formed two-key credentials file,
a successful refresh, and an OAuth write carrying both tokens. -/
theorem claim7_key_uniqueness_witness :
    (keysOfC (fileLinesC
      (refresh_access_token ["DROPBOX_ACCESS_TOKEN=old\n", "X=1\n"] 200 "new").newLines)).Nodup ∧
    (keysOfC (fileLinesC
      (oauthWriteChunks "new" (some "r") ["DROPBOX_ACCESS_TOKEN=old\n", "X=1\n"]))).Nodup :=
  claim7_key_uniqueness ["DROPBOX_ACCESS_TOKEN=old\n", "X=1\n"] 200 "new" (some "r")
    (by decide) (by decide) (by decide) (by decide)

end IncomeClarity
